import Mathlib

/-
Verification of the batched reconciliation engine of the FINA/Shopify
integration.  The repository ships two sync-chunk route implementations:

* `app/routes/api.sync.jsx` — the batched implementation (SKU lookups in
  OR-query batches of 50, one coalesced `productVariantsBulkUpdate` per
  product, concurrency pool).  Definitions embedding it carry the suffix
  `New` below.
* the legacy sync-chunk route (unnamed source file, `part_003`) — a
  sequential implementation doing one SKU query and one price mutation per
  variant.  Definitions embedding it carry the suffix `Old`.

Numbers are embedded as `ℚ` (JS numbers in the relevant code paths are
decimal quantities and prices; no claim depends on binary floating point
rounding), JS `undefined`/`null`/missing map entries as `Option`, and remote
calls as oracles (`search`, `wOk`) plus an explicit trace of issued calls.
-/

set_option maxRecDepth 8000

/-- Per-record sync outcome, exactly the four status strings the routes
assign to a chunk result. -/
inductive Status where
  | updated
  | no_change
  | not_found
  | error
  deriving DecidableEq, Repr

/-- One entry of a FINA product's `add_fields` list.  `value` is `none` when
the JSON field is absent or `null`. -/
structure AddField where
  field : String
  value : Option String
  deriving DecidableEq, Repr

/-- A FINA catalog record as the sync routes read it: `id` keys the quantity
and price maps, `code` is the SKU, `add_fields` is the vendor attribute list
(`none` when missing or not an array). -/
structure FinaProduct where
  id : Int
  code : String
  add_fields : Option (List AddField)
  deriving DecidableEq, Repr

/-- Resolved per-channel visibility flags (`usr_column_503` = B2C,
`usr_column_504` = B2B). -/
structure Visibility where
  b2c : String
  b2b : String
  deriving DecidableEq, Repr

/-- A Shopify product variant as returned by the `productVariants` query.
`price` and `inventoryQuantity` are `none` when the field is missing/null
(the code applies `|| 0` / `parseFloat(x || 0)`). -/
structure ShopVariant where
  id : String
  sku : String
  price : Option ℚ
  inventoryQuantity : Option Int
  inventoryItemId : String
  productId : String
  deriving DecidableEq, Repr

/-- JS `x || ''` on an optional string: `undefined`/`null` and `''` all
collapse to `''`. -/
def jsOrEmpty (v : Option String) : String := v.getD ""

/-- One step of the `for (const field of product.add_fields)` loop in
`getProductVisibility`: a matching key overwrites the stored value. -/
def applyAddField (vis : Visibility) (f : AddField) : Visibility :=
  if f.field = "usr_column_503" then { vis with b2c := jsOrEmpty f.value }
  else if f.field = "usr_column_504" then { vis with b2b := jsOrEmpty f.value }
  else vis

/-- `getProductVisibility` (identical in both route implementations):
defaults `'1'`/`'1'`, then scans `add_fields` in order, each matching entry
overwriting the flag. -/
def getProductVisibility (p : FinaProduct) : Visibility :=
  match p.add_fields with
  | some fields => fields.foldl applyAddField { b2c := "1", b2b := "1" }
  | none => { b2c := "1", b2b := "1" }

/-- `finaQuantity` of the batched route:
`(isB2CVisible || isB2BVisible) ? Math.floor(quantityMap[product.id] || 0) : 0`. -/
def finaQuantityNew (vis : Visibility) (quantityMap : Int → Option ℚ) (pid : Int) : Int :=
  if vis.b2c = "1" ∨ vis.b2b = "1" then ⌊(quantityMap pid).getD 0⌋ else 0

/-- `finaQuantity` of the legacy route: set to
`Math.floor(quantityMap[product.id] || 0)` only in the `isB2CVisible`
branch; the B2B visibility check never restores it. -/
def finaQuantityOld (vis : Visibility) (quantityMap : Int → Option ℚ) (pid : Int) : Int :=
  if vis.b2c = "1" then ⌊(quantityMap pid).getD 0⌋ else 0

/-- `finaB2cPrice` (same in both routes):
`isB2CVisible ? parseFloat(b2cPriceMap[product.id] ?? 0) : 0`. -/
def finaB2cPriceOf (vis : Visibility) (b2cPriceMap : Int → Option ℚ) (pid : Int) : ℚ :=
  if vis.b2c = "1" then (b2cPriceMap pid).getD 0 else 0

/-- `finaB2bPrice` (same in both routes). -/
def finaB2bPriceOf (vis : Visibility) (b2bPriceMap : Int → Option ℚ) (pid : Int) : ℚ :=
  if vis.b2b = "1" then (b2bPriceMap pid).getD 0 else 0

/-- Per-variant `(targetQuantity, targetPrice, hasPriceData)` of the batched
route.  Defaults are the variant's current values with `hasPriceData=false`;
position 0 is B2C, position 1 is B2B. -/
def variantTargetsNew (vIndex : ℕ) (shopifyQuantity : Int) (shopifyPrice : ℚ)
    (isB2CVisible isB2BVisible : Bool) (finaQuantity : Int)
    (finaB2cPrice finaB2bPrice : ℚ) : Int × ℚ × Bool :=
  if vIndex = 0 then (if isB2CVisible then finaQuantity else 0, finaB2cPrice, true)
  else if vIndex = 1 then (if isB2BVisible then finaQuantity else 0, finaB2bPrice, true)
  else (shopifyQuantity, shopifyPrice, false)

/-- Per-variant targets of the legacy route.  `let targetQuantity;` is never
assigned for positions ≥ 2, so the target quantity there is JS `undefined`,
embedded as `none`; `targetPrice` defaults to `0`. -/
def variantTargetsOld (vIndex : ℕ)
    (isB2CVisible isB2BVisible : Bool) (finaQuantity : Int)
    (finaB2cPrice finaB2bPrice : ℚ) : Option Int × ℚ × Bool :=
  if vIndex = 0 then (some (if isB2CVisible then finaQuantity else 0), finaB2cPrice, true)
  else if vIndex = 1 then (some (if isB2BVisible then finaQuantity else 0), finaB2bPrice, true)
  else (none, 0, false)

/-- A mutation issued against Shopify: an `inventorySetQuantities` call for
one inventory item (quantity `none` embeds the legacy route passing JS
`undefined`), or a `productVariantsBulkUpdate` call carrying
`(variantId, price)` pairs.  `toFixed(2)` string formatting of the price is
not modelled; the payload keeps the computed target price. -/
inductive WriteOp where
  | invSet (inventoryItemId : String) (quantity : Option Int)
  | priceBulk (productId : String) (variants : List (String × ℚ))
  deriving DecidableEq, Repr

/-- Whether a write is a `productVariantsBulkUpdate` call. -/
def WriteOp.isPriceBulk : WriteOp → Bool
  | .priceBulk _ _ => true
  | _ => false

/-- The per-product mutable loop state of `processProductChunk`:
counters, the two all-variants-match flags, the deferred price payload of
the batched route, and the trace of mutations issued so far. -/
structure LoopState where
  variantUpdated : ℕ
  variantNoChange : ℕ
  variantErrors : ℕ
  allQty : Bool
  allPrice : Bool
  priceUpdates : List (String × ℚ)
  writes : List WriteOp
  deriving DecidableEq, Repr

/-- Loop state at the top of the variant loop. -/
def initLoopState : LoopState :=
  { variantUpdated := 0, variantNoChange := 0, variantErrors := 0,
    allQty := true, allPrice := true, priceUpdates := [], writes := [] }

/-- One iteration of the variant loop of the batched route: update the
match flags, count a no-change variant, otherwise issue the inventory write
immediately (success decided by the oracle `wOk`) and defer the price
change into `priceUpdates`. -/
def stepVariantNew (wOk : WriteOp → Bool) (isB2CVisible isB2BVisible : Bool)
    (finaQuantity : Int) (finaB2cPrice finaB2bPrice : ℚ)
    (vIndex : ℕ) (variant : ShopVariant) (st : LoopState) : LoopState :=
  let shopifyQuantity : Int := variant.inventoryQuantity.getD 0
  let shopifyPrice : ℚ := variant.price.getD 0
  let t := variantTargetsNew vIndex shopifyQuantity shopifyPrice
    isB2CVisible isB2BVisible finaQuantity finaB2cPrice finaB2bPrice
  let targetQuantity := t.1
  let targetPrice := t.2.1
  let hasPriceData := t.2.2
  let allQty := st.allQty && decide (shopifyQuantity = targetQuantity)
  let allPrice := st.allPrice && !(hasPriceData && decide ((1 : ℚ)/100 < |shopifyPrice - targetPrice|))
  let quantityMatches := decide (targetQuantity = shopifyQuantity)
  let priceMatches := if hasPriceData then decide (|shopifyPrice - targetPrice| ≤ 1/100) else true
  if quantityMatches && priceMatches then
    { st with variantNoChange := st.variantNoChange + 1, allQty := allQty, allPrice := allPrice }
  else
    let st1 :=
      if quantityMatches then
        { st with allQty := allQty, allPrice := allPrice }
      else
        let op := WriteOp.invSet variant.inventoryItemId (some targetQuantity)
        if wOk op then
          { st with allQty := allQty, allPrice := allPrice,
                    writes := st.writes ++ [op], variantUpdated := st.variantUpdated + 1 }
        else
          { st with allQty := allQty, allPrice := allPrice,
                    writes := st.writes ++ [op], variantErrors := st.variantErrors + 1 }
    if !priceMatches && hasPriceData then
      { st1 with priceUpdates := st1.priceUpdates ++ [(variant.id, targetPrice)] }
    else st1

/-- The variant loop of the batched route, carrying the `vIndex` counter. -/
def runVariantsNew (wOk : WriteOp → Bool) (isB2CVisible isB2BVisible : Bool)
    (finaQuantity : Int) (finaB2cPrice finaB2bPrice : ℚ) :
    ℕ → LoopState → List ShopVariant → LoopState
  | _, st, [] => st
  | vIndex, st, v :: rest =>
      runVariantsNew wOk isB2CVisible isB2BVisible finaQuantity finaB2cPrice finaB2bPrice
        (vIndex + 1)
        (stepVariantNew wOk isB2CVisible isB2BVisible finaQuantity finaB2cPrice finaB2bPrice
          vIndex v st) rest

/-- Per-record outcome pushed into `chunkResults` (the message and the
display-only `shopifyQuantity`/`shopifyPrice` strings are not modelled). -/
structure ChunkResult where
  sku : String
  status : Status
  finaQuantity : Int
  finaB2cPrice : ℚ
  finaB2bPrice : ℚ
  deriving DecidableEq, Repr

/-- The per-product worker of the batched route (the body of the
`withConcurrency` worker in `processProductChunk`): resolve visibility,
compute the FINA targets, look the SKU up in the preloaded variant map,
run the variant loop, then issue the single coalesced
`productVariantsBulkUpdate` if any price changes were deferred, and
summarise the status.  Returns the chunk result together with the mutation
calls issued for this product. -/
def processProductNew (wOk : WriteOp → Bool)
    (quantityMap b2cPriceMap b2bPriceMap : Int → Option ℚ)
    (lookup : String → List ShopVariant) (p : FinaProduct) :
    ChunkResult × List WriteOp :=
  let vis := getProductVisibility p
  let isB2CVisible := vis.b2c == "1"
  let isB2BVisible := vis.b2b == "1"
  let finaQuantity := finaQuantityNew vis quantityMap p.id
  let finaB2cPrice := finaB2cPriceOf vis b2cPriceMap p.id
  let finaB2bPrice := finaB2bPriceOf vis b2bPriceMap p.id
  match lookup p.code with
  | [] =>
      ({ sku := p.code, status := .not_found, finaQuantity := finaQuantity,
         finaB2cPrice := finaB2cPrice, finaB2bPrice := finaB2bPrice }, [])
  | v0 :: rest =>
      let st := runVariantsNew wOk isB2CVisible isB2BVisible finaQuantity
        finaB2cPrice finaB2bPrice 0 initLoopState (v0 :: rest)
      let final :=
        if st.priceUpdates = [] then st
        else
          let op := WriteOp.priceBulk v0.productId st.priceUpdates
          if wOk op then
            { st with writes := st.writes ++ [op],
                      variantUpdated := st.variantUpdated + st.priceUpdates.length }
          else
            { st with writes := st.writes ++ [op],
                      variantErrors := st.variantErrors + 1 }
      let status : Status :=
        if final.allQty && final.allPrice then .no_change
        else if final.variantErrors = 0 then .updated
        else .error
      ({ sku := p.code, status := status, finaQuantity := finaQuantity,
         finaB2cPrice := finaB2cPrice, finaB2bPrice := finaB2bPrice }, final.writes)

/-- One iteration of the variant loop of the legacy route.  Differences from
the batched route: the quantity target may be `undefined` (`none`) for
positions ≥ 2 and is still compared and written; the price change is written
immediately as its own single-variant `productVariantsBulkUpdate`; one
combined success flag (`quantityUpdateSuccess && priceUpdateSuccess`)
decides between `variantUpdated++` and `variantErrors++`. -/
def stepVariantOld (wOk : WriteOp → Bool) (isB2CVisible isB2BVisible : Bool)
    (finaQuantity : Int) (finaB2cPrice finaB2bPrice : ℚ)
    (vIndex : ℕ) (variant : ShopVariant) (st : LoopState) : LoopState :=
  let shopifyQuantity : Int := variant.inventoryQuantity.getD 0
  let shopifyPrice : ℚ := variant.price.getD 0
  let t := variantTargetsOld vIndex isB2CVisible isB2BVisible finaQuantity
    finaB2cPrice finaB2bPrice
  let targetQuantity := t.1
  let targetPrice := t.2.1
  let hasPriceData := t.2.2
  let allQty := st.allQty && decide (some shopifyQuantity = targetQuantity)
  let allPrice := st.allPrice && !(hasPriceData && decide ((1 : ℚ)/100 < |shopifyPrice - targetPrice|))
  let quantityMatches := decide (targetQuantity = some shopifyQuantity)
  let priceMatches := if hasPriceData then decide (|shopifyPrice - targetPrice| ≤ 1/100) else true
  if quantityMatches && priceMatches then
    { st with variantNoChange := st.variantNoChange + 1, allQty := allQty, allPrice := allPrice }
  else
    let invOp := WriteOp.invSet variant.inventoryItemId targetQuantity
    let invWrites := if quantityMatches then [] else [invOp]
    let qOk := if quantityMatches then true else wOk invOp
    let prOp := WriteOp.priceBulk variant.productId [(variant.id, targetPrice)]
    let prWrites := if !priceMatches && hasPriceData then [prOp] else []
    let pOk := if !priceMatches && hasPriceData then wOk prOp else true
    if qOk && pOk then
      { st with allQty := allQty, allPrice := allPrice,
                writes := st.writes ++ invWrites ++ prWrites,
                variantUpdated := st.variantUpdated + 1 }
    else
      { st with allQty := allQty, allPrice := allPrice,
                writes := st.writes ++ invWrites ++ prWrites,
                variantErrors := st.variantErrors + 1 }

/-- The variant loop of the legacy route. -/
def runVariantsOld (wOk : WriteOp → Bool) (isB2CVisible isB2BVisible : Bool)
    (finaQuantity : Int) (finaB2cPrice finaB2bPrice : ℚ) :
    ℕ → LoopState → List ShopVariant → LoopState
  | _, st, [] => st
  | vIndex, st, v :: rest =>
      runVariantsOld wOk isB2CVisible isB2BVisible finaQuantity finaB2cPrice finaB2bPrice
        (vIndex + 1)
        (stepVariantOld wOk isB2CVisible isB2BVisible finaQuantity finaB2cPrice finaB2bPrice
          vIndex v st) rest

/-- Per-product processing of the legacy route.  `searchSingle sku` is the
raw node list of its one-SKU `productVariants(query: "sku:<sku>")` search;
the route uses it without any exact-SKU filtering. -/
def processProductOld (wOk : WriteOp → Bool)
    (quantityMap b2cPriceMap b2bPriceMap : Int → Option ℚ)
    (searchSingle : String → List ShopVariant) (p : FinaProduct) :
    ChunkResult × List WriteOp :=
  let vis := getProductVisibility p
  let isB2CVisible := vis.b2c == "1"
  let isB2BVisible := vis.b2b == "1"
  let finaQuantity := finaQuantityOld vis quantityMap p.id
  let finaB2cPrice := finaB2cPriceOf vis b2cPriceMap p.id
  let finaB2bPrice := finaB2bPriceOf vis b2bPriceMap p.id
  match searchSingle p.code with
  | [] =>
      ({ sku := p.code, status := .not_found, finaQuantity := finaQuantity,
         finaB2cPrice := finaB2cPrice, finaB2bPrice := finaB2bPrice }, [])
  | v0 :: rest =>
      let st := runVariantsOld wOk isB2CVisible isB2BVisible finaQuantity
        finaB2cPrice finaB2bPrice 0 initLoopState (v0 :: rest)
      let status : Status :=
        if st.allQty && st.allPrice then .no_change
        else if st.variantErrors = 0 then .updated
        else .error
      ({ sku := p.code, status := status, finaQuantity := finaQuantity,
         finaB2cPrice := finaB2cPrice, finaB2bPrice := finaB2bPrice }, st.writes)

/-- Split a list into consecutive pieces of `n` elements (last piece may be
shorter), mirroring `for (let i = 0; i < xs.length; i += n)` slicing. -/
def chunksOf {α : Type} (n : ℕ) (l : List α) : List (List α) :=
  match l with
  | [] => []
  | x :: xs =>
      if n = 0 then []
      else (x :: xs).take n :: chunksOf n (xs.drop (n - 1))
termination_by l.length
decreasing_by
  simp only [List.length_drop, List.length_cons]
  omega

/-- The SKU lists built by `preloadChunkVariants`: the chunk's products are
sliced into batches of 50 and each batch is mapped to its (truthy) codes. -/
def skuBatches (products : List FinaProduct) : List (List String) :=
  (chunksOf 50 products).map
    (fun part => (part.map (fun p => p.code)).filter (fun c => ¬ c = ""))

/-- The OR-queries actually sent: `getShopifyVariantsBySkusBatch` returns
early, with no remote call, on an empty SKU list. -/
def issuedQueries (products : List FinaProduct) : List (List String) :=
  (skuBatches products).filter (fun q => ¬ q = [])

/-- The `Map<sku, Variant[]>` built from one OR-query response: nodes are
grouped by their own exact `sku` field (nodes with a falsy `sku` are
skipped; a key never inserted reads back as `[]`). -/
def batchLookup (search : List String → List ShopVariant)
    (q : List String) (s : String) : List ShopVariant :=
  if s = "" then [] else (search q).filter (fun v => v.sku = s)

/-- `preloadChunkVariants` of the batched route: run every batch query and
merge the per-batch maps, a later batch overwriting an earlier one per key
(`result.set(sku, variants)`). -/
def preloadChunkVariants (search : List String → List ShopVariant)
    (products : List FinaProduct) : String → List ShopVariant :=
  fun s =>
    (issuedQueries products).foldl
      (fun acc q =>
        let hits := batchLookup search q s
        if hits = [] then acc else hits) []

/-- `processProductChunk` of the batched route, per internal chunk of
products: preload the variant map for the chunk, then run the per-product
worker over every product.  (The concurrency pool assigns each index its own
result and the products share no mutable state, so the result list is the
same as sequential execution.) -/
def processProductChunkNew (wOk : WriteOp → Bool)
    (search : List String → List ShopVariant)
    (quantityMap b2cPriceMap b2bPriceMap : Int → Option ℚ)
    (products : List FinaProduct) : List (ChunkResult × List WriteOp) :=
  products.map
    (processProductNew wOk quantityMap b2cPriceMap b2bPriceMap
      (preloadChunkVariants search products))

/-- A remote call made by the sync action: the ERP (FINA) fetches, the
batched variant search, the location query, and the Shopify mutations.
`authenticate.admin` is the excluded auth collaborator and is not traced. -/
inductive RemoteCall where
  | finaAuth
  | finaProducts
  | finaQuantities
  | finaPrices
  | shopifySearch (skus : List String)
  | shopifyLocation
  | shopifyWrite (op : WriteOp)
  deriving DecidableEq, Repr

/-- The per-record results of one external chunk: the sliced products are
split into internal chunks of 250 and the per-product results concatenated
in order. -/
def chunkResultsOf (wOk : WriteOp → Bool) (search : List String → List ShopVariant)
    (quantityMap b2cPriceMap b2bPriceMap : Int → Option ℚ)
    (chunkProducts : List FinaProduct) : List ChunkResult :=
  ((chunksOf 250 chunkProducts).map
    (fun c =>
      (processProductChunkNew wOk search quantityMap b2cPriceMap b2bPriceMap c).map
        Prod.fst)).flatten

/-- The Shopify calls of one internal chunk, in sequential order: the batch
searches of the preload, the (first-use) location query, then the mutations
of the per-product workers.  With the concurrency pool the mutations of
different products may interleave; the set of issued calls is the same. -/
def chunkCallsOf (wOk : WriteOp → Bool) (search : List String → List ShopVariant)
    (quantityMap b2cPriceMap b2bPriceMap : Int → Option ℚ)
    (chunkProducts : List FinaProduct) : List RemoteCall :=
  ((chunksOf 250 chunkProducts).map
    (fun c =>
      (issuedQueries c).map RemoteCall.shopifySearch
        ++ [RemoteCall.shopifyLocation]
        ++ ((processProductChunkNew wOk search quantityMap b2cPriceMap b2bPriceMap c).map
              Prod.snd).flatten.map RemoteCall.shopifyWrite)).flatten

/-- The JSON body the action returns (the fields the claims are about;
string fields such as `message` and `processingTime` are not modelled, and
fields absent from a given JSON body are `0`/`none` here). -/
structure ActionResponse where
  success : Bool
  isComplete : Bool
  totalProducts : ℕ
  processedProducts : ℕ
  currentChunk : ℕ
  totalChunks : ℕ
  successful : ℕ
  noChange : ℕ
  errors : ℕ
  notFound : ℕ
  processed : ℕ
  nextOffset : Option ℕ
  results : List ChunkResult
  deriving DecidableEq, Repr

/-- The early validation response (`success:false, isComplete:true`). -/
def invalidResponse : ActionResponse :=
  { success := false, isComplete := true, totalProducts := 0, processedProducts := 0,
    currentChunk := 0, totalChunks := 0, successful := 0, noChange := 0, errors := 0,
    notFound := 0, processed := 0, nextOffset := none, results := [] }

/-- `isNaN(offset) || offset < 0` on the parsed offset (`none` = `NaN`). -/
def offsetInvalid (offsetP : Option Int) : Bool :=
  match offsetP with
  | none => true
  | some o => decide (o < 0)

/-- `isNaN(limit) || limit <= 0` on the parsed limit (`none` = `NaN`). -/
def limitInvalid (limitP : Option Int) : Bool :=
  match limitP with
  | none => true
  | some l => decide (l ≤ 0)

/-- The main path of the action once offset/limit validated, for the
batched route: fetch the catalog (empty catalog returns an
immediately-complete response), slice the external chunk, fetch quantity
and price maps, process the chunk, and assemble counters, completion flag
and resumption offset. -/
def actionValid (wOk : WriteOp → Bool) (search : List String → List ShopVariant)
    (quantityMap b2cPriceMap b2bPriceMap : Int → Option ℚ)
    (offset limit : ℕ) (allFinaProducts : List FinaProduct) :
    ActionResponse × List RemoteCall :=
  let baseCalls := [RemoteCall.finaAuth, RemoteCall.finaProducts]
  let totalProducts := allFinaProducts.length
  if totalProducts = 0 then
    ({ success := true, isComplete := true, totalProducts := 0, processedProducts := 0,
       currentChunk := 1, totalChunks := 1, successful := 0, noChange := 0, errors := 0,
       notFound := 0, processed := 0, nextOffset := none, results := [] }, baseCalls)
  else
    let totalChunks := (totalProducts + limit - 1) / limit
    let currentChunk := offset / limit + 1
    let isLastChunk := decide (totalProducts ≤ offset + limit)
    let chunkProducts := (allFinaProducts.drop offset).take limit
    let actualChunkSize := chunkProducts.length
    let chunkResults := chunkResultsOf wOk search quantityMap b2cPriceMap b2bPriceMap chunkProducts
    let successful := chunkResults.countP (fun r => r.status == Status.updated)
    let noChange := chunkResults.countP (fun r => r.status == Status.no_change)
    let errors := chunkResults.countP (fun r => r.status == Status.error)
    let notFound := chunkResults.countP (fun r => r.status == Status.not_found)
    let processedProducts := offset + actualChunkSize
    let isComplete := isLastChunk || decide (totalProducts ≤ processedProducts)
    ({ success := true, isComplete := isComplete, totalProducts := totalProducts,
       processedProducts := processedProducts, currentChunk := currentChunk,
       totalChunks := totalChunks, successful := successful, noChange := noChange,
       errors := errors, notFound := notFound, processed := actualChunkSize,
       nextOffset := if isComplete then none else some (offset + limit),
       results := chunkResults.take 50 },
     baseCalls ++ [RemoteCall.finaQuantities, RemoteCall.finaPrices]
       ++ chunkCallsOf wOk search quantityMap b2cPriceMap b2bPriceMap chunkProducts)

/-- The sync action: validate the parsed offset and limit before any remote
call (`none` embeds a `NaN` parse), then run the main path. -/
def actionModel (wOk : WriteOp → Bool) (search : List String → List ShopVariant)
    (quantityMap b2cPriceMap b2bPriceMap : Int → Option ℚ)
    (offsetP limitP : Option Int) (allFinaProducts : List FinaProduct) :
    ActionResponse × List RemoteCall :=
  if offsetInvalid offsetP then (invalidResponse, [])
  else if limitInvalid limitP then (invalidResponse, [])
  else
    actionValid wOk search quantityMap b2cPriceMap b2bPriceMap
      (offsetP.getD 0).toNat (limitP.getD 0).toNat allFinaProducts

/-- Last-match semantics of the visibility scan: the value of the last
`add_fields` entry whose key is `k` (passed through `|| ''`), or the
default `"1"` when no entry matches. -/
def lastFieldValue (k : String) (fields : List AddField) : String :=
  match fields.reverse.find? (fun f => f.field = k) with
  | some f => jsOrEmpty f.value
  | none => "1"

/-- Generalised last-match value of the visibility scan: the start value `d`
overwritten by the last entry whose key is `k`. -/
def lastOr (d k : String) (fields : List AddField) : String :=
  match fields.reverse.find? (fun f => f.field = k) with
  | some f => jsOrEmpty f.value
  | none => d

theorem lastOr_append_singleton (d k : String) (l : List AddField) (f : AddField) :
    lastOr d k (l ++ [f]) = if f.field = k then jsOrEmpty f.value else lastOr d k l := by
  unfold lastOr
  rw [List.reverse_append]
  simp only [List.reverse_singleton, List.singleton_append, List.find?_cons]
  by_cases h : f.field = k
  · simp [h]
  · simp [h]

theorem foldl_applyAddField (fields : List AddField) (init : Visibility) :
    fields.foldl applyAddField init =
      { b2c := lastOr init.b2c "usr_column_503" fields,
        b2b := lastOr init.b2b "usr_column_504" fields } := by
  induction fields using List.reverseRecOn with
  | nil => rfl
  | append_singleton l f ih =>
      rw [List.foldl_append, ih, lastOr_append_singleton, lastOr_append_singleton]
      by_cases h1 : f.field = "usr_column_503"
      · simp [applyAddField, h1]
      · by_cases h2 : f.field = "usr_column_504" <;> simp [applyAddField, h1, h2]

/-- C9 (amended): the visibility resolver scans `add_fields` for the two
channel keys with the default `"1"` when a key never occurs, but each
matching entry overwrites the flag, so the LAST matching entry per key wins
(not the first). -/
theorem visibility_last_match_wins (p : FinaProduct) :
    getProductVisibility p =
      { b2c := lastFieldValue "usr_column_503" (p.add_fields.getD []),
        b2b := lastFieldValue "usr_column_504" (p.add_fields.getD []) } := by
  unfold getProductVisibility
  cases h : p.add_fields with
  | none => rfl
  | some fields =>
      show fields.foldl applyAddField { b2c := "1", b2b := "1" } = _
      rw [foldl_applyAddField]
      rfl

/-- C9, counterexample to the first-match reading: two entries for the B2C
key, `"1"` first and `"0"` second; the resolver returns the second entry's
value `"0"`, not the first entry's `"1"`. -/
theorem visibility_first_match_cex :
    getProductVisibility
        { id := 1, code := "A",
          add_fields := some
            [ { field := "usr_column_503", value := some "1" },
              { field := "usr_column_503", value := some "0" } ] }
      = { b2c := "0", b2b := "1" } ∧ ("0" : String) ≠ "1" := by
  refine ⟨?_, by decide⟩
  rfl

/-- C1: in both route implementations, when the resolved visibility of a
channel (B2C = position 0, B2B = position 1) is not the string `"1"`, the
computed target quantity and target price for that channel's variant are
exactly 0, for every quantity and price snapshot. -/
theorem hidden_channel_targets_zero
    (vis : Visibility) (quantityMap b2cPriceMap b2bPriceMap : Int → Option ℚ)
    (pid : Int) (shopQty : Int) (shopPrice : ℚ) :
    (vis.b2c ≠ "1" →
      (variantTargetsNew 0 shopQty shopPrice (vis.b2c == "1") (vis.b2b == "1")
        (finaQuantityNew vis quantityMap pid) (finaB2cPriceOf vis b2cPriceMap pid)
        (finaB2bPriceOf vis b2bPriceMap pid)).1 = 0 ∧
      (variantTargetsNew 0 shopQty shopPrice (vis.b2c == "1") (vis.b2b == "1")
        (finaQuantityNew vis quantityMap pid) (finaB2cPriceOf vis b2cPriceMap pid)
        (finaB2bPriceOf vis b2bPriceMap pid)).2.1 = 0 ∧
      (variantTargetsOld 0 (vis.b2c == "1") (vis.b2b == "1")
        (finaQuantityOld vis quantityMap pid) (finaB2cPriceOf vis b2cPriceMap pid)
        (finaB2bPriceOf vis b2bPriceMap pid)).1 = some 0 ∧
      (variantTargetsOld 0 (vis.b2c == "1") (vis.b2b == "1")
        (finaQuantityOld vis quantityMap pid) (finaB2cPriceOf vis b2cPriceMap pid)
        (finaB2bPriceOf vis b2bPriceMap pid)).2.1 = 0) ∧
    (vis.b2b ≠ "1" →
      (variantTargetsNew 1 shopQty shopPrice (vis.b2c == "1") (vis.b2b == "1")
        (finaQuantityNew vis quantityMap pid) (finaB2cPriceOf vis b2cPriceMap pid)
        (finaB2bPriceOf vis b2bPriceMap pid)).1 = 0 ∧
      (variantTargetsNew 1 shopQty shopPrice (vis.b2c == "1") (vis.b2b == "1")
        (finaQuantityNew vis quantityMap pid) (finaB2cPriceOf vis b2cPriceMap pid)
        (finaB2bPriceOf vis b2bPriceMap pid)).2.1 = 0 ∧
      (variantTargetsOld 1 (vis.b2c == "1") (vis.b2b == "1")
        (finaQuantityOld vis quantityMap pid) (finaB2cPriceOf vis b2cPriceMap pid)
        (finaB2bPriceOf vis b2bPriceMap pid)).1 = some 0 ∧
      (variantTargetsOld 1 (vis.b2c == "1") (vis.b2b == "1")
        (finaQuantityOld vis quantityMap pid) (finaB2cPriceOf vis b2cPriceMap pid)
        (finaB2bPriceOf vis b2bPriceMap pid)).2.1 = 0) := by
  constructor
  · intro h
    simp [variantTargetsNew, variantTargetsOld, finaB2cPriceOf, h]
  · intro h
    simp [variantTargetsNew, variantTargetsOld, finaB2bPriceOf, h]

/-- C1, witness: both channels hidden (`b2c="0"`, `b2b=""`) at a concrete
snapshot; both channel variants get target quantity 0 and target price 0. -/
theorem hidden_channel_targets_zero_witness :
    ((variantTargetsNew 0 5 3 ((Visibility.mk "0" "").b2c == "1") ((Visibility.mk "0" "").b2b == "1")
        (finaQuantityNew (Visibility.mk "0" "") (fun _ => some 7) 10)
        (finaB2cPriceOf (Visibility.mk "0" "") (fun _ => some 8) 10)
        (finaB2bPriceOf (Visibility.mk "0" "") (fun _ => some 9) 10)).1 = 0 ∧
      (variantTargetsNew 0 5 3 ((Visibility.mk "0" "").b2c == "1") ((Visibility.mk "0" "").b2b == "1")
        (finaQuantityNew (Visibility.mk "0" "") (fun _ => some 7) 10)
        (finaB2cPriceOf (Visibility.mk "0" "") (fun _ => some 8) 10)
        (finaB2bPriceOf (Visibility.mk "0" "") (fun _ => some 9) 10)).2.1 = 0 ∧
      (variantTargetsOld 0 ((Visibility.mk "0" "").b2c == "1") ((Visibility.mk "0" "").b2b == "1")
        (finaQuantityOld (Visibility.mk "0" "") (fun _ => some 7) 10)
        (finaB2cPriceOf (Visibility.mk "0" "") (fun _ => some 8) 10)
        (finaB2bPriceOf (Visibility.mk "0" "") (fun _ => some 9) 10)).1 = some 0 ∧
      (variantTargetsOld 0 ((Visibility.mk "0" "").b2c == "1") ((Visibility.mk "0" "").b2b == "1")
        (finaQuantityOld (Visibility.mk "0" "") (fun _ => some 7) 10)
        (finaB2cPriceOf (Visibility.mk "0" "") (fun _ => some 8) 10)
        (finaB2bPriceOf (Visibility.mk "0" "") (fun _ => some 9) 10)).2.1 = 0) ∧
    ((variantTargetsNew 1 5 3 ((Visibility.mk "0" "").b2c == "1") ((Visibility.mk "0" "").b2b == "1")
        (finaQuantityNew (Visibility.mk "0" "") (fun _ => some 7) 10)
        (finaB2cPriceOf (Visibility.mk "0" "") (fun _ => some 8) 10)
        (finaB2bPriceOf (Visibility.mk "0" "") (fun _ => some 9) 10)).1 = 0 ∧
      (variantTargetsNew 1 5 3 ((Visibility.mk "0" "").b2c == "1") ((Visibility.mk "0" "").b2b == "1")
        (finaQuantityNew (Visibility.mk "0" "") (fun _ => some 7) 10)
        (finaB2cPriceOf (Visibility.mk "0" "") (fun _ => some 8) 10)
        (finaB2bPriceOf (Visibility.mk "0" "") (fun _ => some 9) 10)).2.1 = 0 ∧
      (variantTargetsOld 1 ((Visibility.mk "0" "").b2c == "1") ((Visibility.mk "0" "").b2b == "1")
        (finaQuantityOld (Visibility.mk "0" "") (fun _ => some 7) 10)
        (finaB2cPriceOf (Visibility.mk "0" "") (fun _ => some 8) 10)
        (finaB2bPriceOf (Visibility.mk "0" "") (fun _ => some 9) 10)).1 = some 0 ∧
      (variantTargetsOld 1 ((Visibility.mk "0" "").b2c == "1") ((Visibility.mk "0" "").b2b == "1")
        (finaQuantityOld (Visibility.mk "0" "") (fun _ => some 7) 10)
        (finaB2cPriceOf (Visibility.mk "0" "") (fun _ => some 8) 10)
        (finaB2bPriceOf (Visibility.mk "0" "") (fun _ => some 9) 10)).2.1 = 0) :=
  ⟨(hidden_channel_targets_zero (Visibility.mk "0" "") (fun _ => some 7) (fun _ => some 8)
      (fun _ => some 9) 10 5 3).1 (by decide),
   (hidden_channel_targets_zero (Visibility.mk "0" "") (fun _ => some 7) (fun _ => some 8)
      (fun _ => some 9) 10 5 3).2 (by decide)⟩

/-- C2 (amended): in the batched route, a visible channel's target quantity
is `floor(quantityMap[id] || 0)` at either position, independent of the
other channel.  In the legacy route this holds for position 0 and, for a
visible B2B variant (position 1), only when B2C is also visible: when B2C
is hidden the legacy `finaQuantity` stays 0 and the visible B2B variant's
target quantity is 0 regardless of the snapshot. -/
theorem visible_channel_quantity_floor
    (vis : Visibility) (quantityMap : Int → Option ℚ) (pid : Int)
    (shopQty : Int) (shopPrice : ℚ) (pB2c pB2b : ℚ) :
    (vis.b2c = "1" →
      (variantTargetsNew 0 shopQty shopPrice (vis.b2c == "1") (vis.b2b == "1")
        (finaQuantityNew vis quantityMap pid) pB2c pB2b).1 = ⌊(quantityMap pid).getD 0⌋) ∧
    (vis.b2b = "1" →
      (variantTargetsNew 1 shopQty shopPrice (vis.b2c == "1") (vis.b2b == "1")
        (finaQuantityNew vis quantityMap pid) pB2c pB2b).1 = ⌊(quantityMap pid).getD 0⌋) ∧
    (vis.b2c = "1" →
      (variantTargetsOld 0 (vis.b2c == "1") (vis.b2b == "1")
        (finaQuantityOld vis quantityMap pid) pB2c pB2b).1 = some ⌊(quantityMap pid).getD 0⌋) ∧
    (vis.b2b = "1" → vis.b2c = "1" →
      (variantTargetsOld 1 (vis.b2c == "1") (vis.b2b == "1")
        (finaQuantityOld vis quantityMap pid) pB2c pB2b).1 = some ⌊(quantityMap pid).getD 0⌋) ∧
    (vis.b2b = "1" → vis.b2c ≠ "1" →
      (variantTargetsOld 1 (vis.b2c == "1") (vis.b2b == "1")
        (finaQuantityOld vis quantityMap pid) pB2c pB2b).1 = some 0) := by
  refine ⟨?_, ?_, ?_, ?_, ?_⟩
  · intro h
    simp [variantTargetsNew, finaQuantityNew, h]
  · intro h
    simp [variantTargetsNew, finaQuantityNew, h]
  · intro h
    simp [variantTargetsOld, finaQuantityOld, h]
  · intro h h2
    simp [variantTargetsOld, finaQuantityOld, h, h2]
  · intro h h2
    simp [variantTargetsOld, finaQuantityOld, h, h2]

/-- C2, witness at visibility `{b2c="0", b2b="1"}` and snapshot `{10 ↦ 7}`:
the batched route's visible B2B variant (position 1) gets target quantity
`⌊7⌋`, and the legacy route's gets 0. -/
theorem visible_channel_quantity_floor_witness :
    ((variantTargetsNew 1 5 3 ((Visibility.mk "0" "1").b2c == "1") ((Visibility.mk "0" "1").b2b == "1")
        (finaQuantityNew (Visibility.mk "0" "1") (fun _ => some 7) 10) 8 9).1
      = ⌊((fun _ => some 7 : Int → Option ℚ) 10).getD 0⌋) ∧
    ((variantTargetsOld 1 ((Visibility.mk "0" "1").b2c == "1") ((Visibility.mk "0" "1").b2b == "1")
        (finaQuantityOld (Visibility.mk "0" "1") (fun _ => some 7) 10) 8 9).1 = some 0) :=
  ⟨(visible_channel_quantity_floor (Visibility.mk "0" "1") (fun _ => some 7) 10 5 3 8 9).2.1
      (by decide),
   (visible_channel_quantity_floor (Visibility.mk "0" "1") (fun _ => some 7) 10 5 3 8 9).2.2.2.2
      (by decide) (by decide)⟩

/-- C2, counterexample on the legacy route: B2C hidden (`"0"`), B2B visible
(`"1"`), quantity snapshot `{10 ↦ 7}`.  The legacy computed target quantity
for the visible B2B variant (position 1) is 0, while the floor of the
snapshot quantity is 7. -/
theorem visible_b2b_quantity_legacy_cex :
    (variantTargetsOld 1 ((Visibility.mk "0" "1").b2c == "1") ((Visibility.mk "0" "1").b2b == "1")
        (finaQuantityOld (Visibility.mk "0" "1") (fun _ => some 7) 10) 8 9).1 = some 0 ∧
    (⌊(((fun _ => some 7 : Int → Option ℚ) 10).getD 0 : ℚ)⌋ : Int) = 7 ∧
    (some (0 : Int) : Option Int) ≠ some 7 := by
  refine ⟨?_, by decide, by decide⟩
  simp [variantTargetsOld, finaQuantityOld]

/-- A variant matches its computed targets in the batched route: the target
quantity equals the current quantity, and when the position carries price
data the current price is within the 0.01 tolerance of the target. -/
def VariantMatchNew (c1 c2 : Bool) (fq : Int) (p3 p5 : ℚ) (i : ℕ) (v : ShopVariant) : Prop :=
  (variantTargetsNew i (v.inventoryQuantity.getD 0) (v.price.getD 0) c1 c2 fq p3 p5).1
      = v.inventoryQuantity.getD 0 ∧
  ((variantTargetsNew i (v.inventoryQuantity.getD 0) (v.price.getD 0) c1 c2 fq p3 p5).2.2 = true →
    |v.price.getD 0 -
      (variantTargetsNew i (v.inventoryQuantity.getD 0) (v.price.getD 0) c1 c2 fq p3 p5).2.1| ≤ 1/100)

/-- All variants from position `i` on match their batched-route targets. -/
def AllMatchNew (c1 c2 : Bool) (fq : Int) (p3 p5 : ℚ) : ℕ → List ShopVariant → Prop
  | _, [] => True
  | i, v :: rest => VariantMatchNew c1 c2 fq p3 p5 i v ∧ AllMatchNew c1 c2 fq p3 p5 (i + 1) rest

/-- The same for the legacy route (target quantity compared as an option). -/
def VariantMatchOld (c1 c2 : Bool) (fq : Int) (p3 p5 : ℚ) (i : ℕ) (v : ShopVariant) : Prop :=
  (variantTargetsOld i c1 c2 fq p3 p5).1 = some (v.inventoryQuantity.getD 0) ∧
  ((variantTargetsOld i c1 c2 fq p3 p5).2.2 = true →
    |v.price.getD 0 - (variantTargetsOld i c1 c2 fq p3 p5).2.1| ≤ 1/100)

/-- All variants from position `i` on match their legacy-route targets. -/
def AllMatchOld (c1 c2 : Bool) (fq : Int) (p3 p5 : ℚ) : ℕ → List ShopVariant → Prop
  | _, [] => True
  | i, v :: rest => VariantMatchOld c1 c2 fq p3 p5 i v ∧ AllMatchOld c1 c2 fq p3 p5 (i + 1) rest

theorem stepVariantNew_of_match (wOk : WriteOp → Bool) (c1 c2 : Bool) (fq : Int) (p3 p5 : ℚ)
    (i : ℕ) (v : ShopVariant) (st : LoopState)
    (h : VariantMatchNew c1 c2 fq p3 p5 i v) :
    stepVariantNew wOk c1 c2 fq p3 p5 i v st =
      { st with variantNoChange := st.variantNoChange + 1 } := by
  obtain ⟨hq, hp⟩ := h
  unfold stepVariantNew
  cases ht : (variantTargetsNew i (v.inventoryQuantity.getD 0) (v.price.getD 0) c1 c2 fq p3 p5).2.2 with
  | false => simp [ht, hq]
  | true =>
      have hle := hp ht
      have hle' : |v.price.getD 0 -
          (variantTargetsNew i (v.inventoryQuantity.getD 0) (v.price.getD 0) c1 c2 fq p3 p5).2.1|
            ≤ (100 : ℚ)⁻¹ := by
        simpa [one_div] using hle
      simp [ht, hq, hle', not_lt.mpr hle']

theorem stepVariantOld_of_match (wOk : WriteOp → Bool) (c1 c2 : Bool) (fq : Int) (p3 p5 : ℚ)
    (i : ℕ) (v : ShopVariant) (st : LoopState)
    (h : VariantMatchOld c1 c2 fq p3 p5 i v) :
    stepVariantOld wOk c1 c2 fq p3 p5 i v st =
      { st with variantNoChange := st.variantNoChange + 1 } := by
  obtain ⟨hq, hp⟩ := h
  unfold stepVariantOld
  cases ht : (variantTargetsOld i c1 c2 fq p3 p5).2.2 with
  | false => simp [ht, hq]
  | true =>
      have hle := hp ht
      have hle' : |v.price.getD 0 - (variantTargetsOld i c1 c2 fq p3 p5).2.1|
          ≤ (100 : ℚ)⁻¹ := by
        simpa [one_div] using hle
      simp [ht, hq, hle', not_lt.mpr hle']

theorem runVariantsNew_of_match (wOk : WriteOp → Bool) (c1 c2 : Bool) (fq : Int) (p3 p5 : ℚ)
    (vs : List ShopVariant) :
    ∀ (i : ℕ) (st : LoopState), AllMatchNew c1 c2 fq p3 p5 i vs →
      runVariantsNew wOk c1 c2 fq p3 p5 i st vs =
        { st with variantNoChange := st.variantNoChange + vs.length } := by
  induction vs with
  | nil => intro i st _; simp [runVariantsNew]
  | cons v rest ih =>
      intro i st hall
      obtain ⟨hv, hrest⟩ := hall
      rw [runVariantsNew, stepVariantNew_of_match wOk c1 c2 fq p3 p5 i v st hv,
        ih (i + 1) _ hrest]
      simp
      omega

theorem runVariantsOld_of_match (wOk : WriteOp → Bool) (c1 c2 : Bool) (fq : Int) (p3 p5 : ℚ)
    (vs : List ShopVariant) :
    ∀ (i : ℕ) (st : LoopState), AllMatchOld c1 c2 fq p3 p5 i vs →
      runVariantsOld wOk c1 c2 fq p3 p5 i st vs =
        { st with variantNoChange := st.variantNoChange + vs.length } := by
  induction vs with
  | nil => intro i st _; simp [runVariantsOld]
  | cons v rest ih =>
      intro i st hall
      obtain ⟨hv, hrest⟩ := hall
      rw [runVariantsOld, stepVariantOld_of_match wOk c1 c2 fq p3 p5 i v st hv,
        ih (i + 1) _ hrest]
      simp
      omega

/-- C6: in both route implementations, for a product with both channels
resolved visible whose resolved variants all already match the computed
targets (exact quantity, price within 0.01), the reported status is
`no_change` and no inventory or price mutation is issued. -/
theorem all_match_no_change
    (wOk : WriteOp → Bool) (quantityMap b2cPriceMap b2bPriceMap : Int → Option ℚ)
    (lookup searchSingle : String → List ShopVariant) (p : FinaProduct)
    (v0 w0 : ShopVariant) (vs ws : List ShopVariant)
    (hvis : getProductVisibility p = { b2c := "1", b2b := "1" })
    (hlkN : lookup p.code = v0 :: vs)
    (hmN : AllMatchNew true true
      (finaQuantityNew { b2c := "1", b2b := "1" } quantityMap p.id)
      (finaB2cPriceOf { b2c := "1", b2b := "1" } b2cPriceMap p.id)
      (finaB2bPriceOf { b2c := "1", b2b := "1" } b2bPriceMap p.id) 0 (v0 :: vs))
    (hlkO : searchSingle p.code = w0 :: ws)
    (hmO : AllMatchOld true true
      (finaQuantityOld { b2c := "1", b2b := "1" } quantityMap p.id)
      (finaB2cPriceOf { b2c := "1", b2b := "1" } b2cPriceMap p.id)
      (finaB2bPriceOf { b2c := "1", b2b := "1" } b2bPriceMap p.id) 0 (w0 :: ws)) :
    (processProductNew wOk quantityMap b2cPriceMap b2bPriceMap lookup p).1.status = .no_change ∧
    (processProductNew wOk quantityMap b2cPriceMap b2bPriceMap lookup p).2 = [] ∧
    (processProductOld wOk quantityMap b2cPriceMap b2bPriceMap searchSingle p).1.status = .no_change ∧
    (processProductOld wOk quantityMap b2cPriceMap b2bPriceMap searchSingle p).2 = [] := by
  have hN := runVariantsNew_of_match wOk true true
    (finaQuantityNew { b2c := "1", b2b := "1" } quantityMap p.id)
    (finaB2cPriceOf { b2c := "1", b2b := "1" } b2cPriceMap p.id)
    (finaB2bPriceOf { b2c := "1", b2b := "1" } b2bPriceMap p.id)
    (v0 :: vs) 0 initLoopState hmN
  have hO := runVariantsOld_of_match wOk true true
    (finaQuantityOld { b2c := "1", b2b := "1" } quantityMap p.id)
    (finaB2cPriceOf { b2c := "1", b2b := "1" } b2cPriceMap p.id)
    (finaB2bPriceOf { b2c := "1", b2b := "1" } b2bPriceMap p.id)
    (w0 :: ws) 0 initLoopState hmO
  refine ⟨?_, ?_, ?_, ?_⟩ <;>
  · simp [processProductNew, processProductOld, hvis, hlkN, hlkO, hN, hO]
    simp [initLoopState]

/-- C6, witness: product `"A"` (both channels visible by default), snapshot
quantity 5, B2C price 10, B2B price 20, and two resolved variants already at
exactly those values; both routes report `no_change` and issue no mutation. -/
theorem all_match_no_change_witness :
    (processProductNew (fun _ => true) (fun _ => some 5) (fun _ => some 10) (fun _ => some 20)
        (fun s => if s = "A"
          then [ShopVariant.mk "v0" "A" (some 10) (some 5) "i0" "P",
                ShopVariant.mk "v1" "A" (some 20) (some 5) "i1" "P"]
          else [])
        (FinaProduct.mk 1 "A" none)).1.status = .no_change ∧
    (processProductNew (fun _ => true) (fun _ => some 5) (fun _ => some 10) (fun _ => some 20)
        (fun s => if s = "A"
          then [ShopVariant.mk "v0" "A" (some 10) (some 5) "i0" "P",
                ShopVariant.mk "v1" "A" (some 20) (some 5) "i1" "P"]
          else [])
        (FinaProduct.mk 1 "A" none)).2 = [] ∧
    (processProductOld (fun _ => true) (fun _ => some 5) (fun _ => some 10) (fun _ => some 20)
        (fun s => if s = "A"
          then [ShopVariant.mk "v0" "A" (some 10) (some 5) "i0" "P",
                ShopVariant.mk "v1" "A" (some 20) (some 5) "i1" "P"]
          else [])
        (FinaProduct.mk 1 "A" none)).1.status = .no_change ∧
    (processProductOld (fun _ => true) (fun _ => some 5) (fun _ => some 10) (fun _ => some 20)
        (fun s => if s = "A"
          then [ShopVariant.mk "v0" "A" (some 10) (some 5) "i0" "P",
                ShopVariant.mk "v1" "A" (some 20) (some 5) "i1" "P"]
          else [])
        (FinaProduct.mk 1 "A" none)).2 = [] :=
  all_match_no_change (fun _ => true) (fun _ => some 5) (fun _ => some 10) (fun _ => some 20)
    (fun s => if s = "A"
      then [ShopVariant.mk "v0" "A" (some 10) (some 5) "i0" "P",
            ShopVariant.mk "v1" "A" (some 20) (some 5) "i1" "P"]
      else [])
    (fun s => if s = "A"
      then [ShopVariant.mk "v0" "A" (some 10) (some 5) "i0" "P",
            ShopVariant.mk "v1" "A" (some 20) (some 5) "i1" "P"]
      else [])
    (FinaProduct.mk 1 "A" none)
    (ShopVariant.mk "v0" "A" (some 10) (some 5) "i0" "P")
    (ShopVariant.mk "v0" "A" (some 10) (some 5) "i0" "P")
    [ShopVariant.mk "v1" "A" (some 20) (some 5) "i1" "P"]
    [ShopVariant.mk "v1" "A" (some 20) (some 5) "i1" "P"]
    rfl rfl
    (by norm_num [AllMatchNew, VariantMatchNew, variantTargetsNew, finaQuantityNew,
      finaB2cPriceOf, finaB2bPriceOf])
    rfl
    (by norm_num [AllMatchOld, VariantMatchOld, variantTargetsOld, finaQuantityOld,
      finaB2cPriceOf, finaB2bPriceOf])

/-- The deferred price payload the batched route's variant loop accumulates
from position `i` on: one `(variantId, targetPrice)` entry per variant whose
position carries price data and whose current price misses the tolerance. -/
def pendingPricesNew (c1 c2 : Bool) (fq : Int) (p3 p5 : ℚ) :
    ℕ → List ShopVariant → List (String × ℚ)
  | _, [] => []
  | i, v :: rest =>
      (if (variantTargetsNew i (v.inventoryQuantity.getD 0) (v.price.getD 0) c1 c2 fq p3 p5).2.2
          && !(decide (|v.price.getD 0 -
              (variantTargetsNew i (v.inventoryQuantity.getD 0) (v.price.getD 0) c1 c2 fq p3 p5).2.1|
                ≤ 1/100))
        then [(v.id,
          (variantTargetsNew i (v.inventoryQuantity.getD 0) (v.price.getD 0) c1 c2 fq p3 p5).2.1)]
        else [])
      ++ pendingPricesNew c1 c2 fq p3 p5 (i + 1) rest

theorem stepVariantNew_writes_filter (wOk : WriteOp → Bool) (c1 c2 : Bool) (fq : Int)
    (p3 p5 : ℚ) (i : ℕ) (v : ShopVariant) (st : LoopState) :
    ((stepVariantNew wOk c1 c2 fq p3 p5 i v st).writes).filter (fun op => op.isPriceBulk) =
      st.writes.filter (fun op => op.isPriceBulk) := by
  unfold stepVariantNew
  cases ht : (variantTargetsNew i (v.inventoryQuantity.getD 0) (v.price.getD 0) c1 c2 fq p3 p5).2.2 with
  | false =>
      by_cases hq : (variantTargetsNew i (v.inventoryQuantity.getD 0) (v.price.getD 0) c1 c2 fq p3 p5).1
          = v.inventoryQuantity.getD 0
      · simp [ht, hq]
      · simp [ht, hq]
        split <;> simp [List.filter_append, WriteOp.isPriceBulk]
  | true =>
      by_cases hle : |v.price.getD 0 -
          (variantTargetsNew i (v.inventoryQuantity.getD 0) (v.price.getD 0) c1 c2 fq p3 p5).2.1|
            ≤ (100 : ℚ)⁻¹
      · by_cases hq : (variantTargetsNew i (v.inventoryQuantity.getD 0) (v.price.getD 0) c1 c2 fq p3 p5).1
            = v.inventoryQuantity.getD 0
        · simp [ht, hq, hle]
        · simp [ht, hq, hle]
          split <;> simp [List.filter_append, WriteOp.isPriceBulk]
      · by_cases hq : (variantTargetsNew i (v.inventoryQuantity.getD 0) (v.price.getD 0) c1 c2 fq p3 p5).1
            = v.inventoryQuantity.getD 0
        · simp [ht, hq, hle, List.filter_append, WriteOp.isPriceBulk]
        · simp [ht, hq, hle]
          split <;> simp [List.filter_append, WriteOp.isPriceBulk]

theorem stepVariantNew_priceUpdates (wOk : WriteOp → Bool) (c1 c2 : Bool) (fq : Int)
    (p3 p5 : ℚ) (i : ℕ) (v : ShopVariant) (st : LoopState) :
    (stepVariantNew wOk c1 c2 fq p3 p5 i v st).priceUpdates =
      st.priceUpdates ++
        (if (variantTargetsNew i (v.inventoryQuantity.getD 0) (v.price.getD 0) c1 c2 fq p3 p5).2.2
            && !(decide (|v.price.getD 0 -
                (variantTargetsNew i (v.inventoryQuantity.getD 0) (v.price.getD 0) c1 c2 fq p3 p5).2.1|
                  ≤ 1/100))
          then [(v.id,
            (variantTargetsNew i (v.inventoryQuantity.getD 0) (v.price.getD 0) c1 c2 fq p3 p5).2.1)]
          else []) := by
  unfold stepVariantNew
  cases ht : (variantTargetsNew i (v.inventoryQuantity.getD 0) (v.price.getD 0) c1 c2 fq p3 p5).2.2 with
  | false =>
      simp only [ht, Bool.false_and, Bool.and_false, if_false, Bool.and_true, ite_self]
      by_cases hq : (variantTargetsNew i (v.inventoryQuantity.getD 0) (v.price.getD 0) c1 c2 fq p3 p5).1
          = v.inventoryQuantity.getD 0
      · simp [hq]
      · simp [hq]
        split <;> simp
  | true =>
      by_cases hle : |v.price.getD 0 -
          (variantTargetsNew i (v.inventoryQuantity.getD 0) (v.price.getD 0) c1 c2 fq p3 p5).2.1|
            ≤ (100 : ℚ)⁻¹
      · by_cases hq : (variantTargetsNew i (v.inventoryQuantity.getD 0) (v.price.getD 0) c1 c2 fq p3 p5).1
            = v.inventoryQuantity.getD 0
        · simp [ht, hq, hle]
        · simp [ht, hq, hle]
          split <;> simp
      · by_cases hq : (variantTargetsNew i (v.inventoryQuantity.getD 0) (v.price.getD 0) c1 c2 fq p3 p5).1
            = v.inventoryQuantity.getD 0
        · simp [ht, hq, hle]
        · simp [ht, hq, hle]
          split <;> simp

theorem runVariantsNew_writes_filter (wOk : WriteOp → Bool) (c1 c2 : Bool) (fq : Int)
    (p3 p5 : ℚ) (vs : List ShopVariant) :
    ∀ (i : ℕ) (st : LoopState),
      ((runVariantsNew wOk c1 c2 fq p3 p5 i st vs).writes).filter (fun op => op.isPriceBulk) =
        st.writes.filter (fun op => op.isPriceBulk) := by
  induction vs with
  | nil => intro i st; simp [runVariantsNew]
  | cons v rest ih =>
      intro i st
      rw [runVariantsNew, ih (i + 1), stepVariantNew_writes_filter]

theorem runVariantsNew_priceUpdates (wOk : WriteOp → Bool) (c1 c2 : Bool) (fq : Int)
    (p3 p5 : ℚ) (vs : List ShopVariant) :
    ∀ (i : ℕ) (st : LoopState),
      (runVariantsNew wOk c1 c2 fq p3 p5 i st vs).priceUpdates =
        st.priceUpdates ++ pendingPricesNew c1 c2 fq p3 p5 i vs := by
  induction vs with
  | nil => intro i st; simp [runVariantsNew, pendingPricesNew]
  | cons v rest ih =>
      intro i st
      rw [runVariantsNew, ih (i + 1), stepVariantNew_priceUpdates, pendingPricesNew,
        List.append_assoc]

theorem pendingPricesNew_ge_two (c1 c2 : Bool) (fq : Int) (p3 p5 : ℚ)
    (vs : List ShopVariant) :
    ∀ i : ℕ, 2 ≤ i → pendingPricesNew c1 c2 fq p3 p5 i vs = [] := by
  induction vs with
  | nil => intro i _; rfl
  | cons v rest ih =>
      intro i hi
      rw [pendingPricesNew]
      have h0 : ¬ i = 0 := by omega
      have h1 : ¬ i = 1 := by omega
      simp [variantTargetsNew, h0, h1, ih (i + 1) (by omega)]

/-- C3 (amended): in the batched route, a product whose first two variants
both need a price change gets exactly one `productVariantsBulkUpdate` call,
carrying both variants' price entries (the legacy route instead issues one
bulk call per mismatched variant). -/
theorem price_writes_coalesced
    (wOk : WriteOp → Bool) (quantityMap b2cPriceMap b2bPriceMap : Int → Option ℚ)
    (lookup : String → List ShopVariant) (p : FinaProduct)
    (v0 v1 : ShopVariant) (rest : List ShopVariant)
    (hlk : lookup p.code = v0 :: v1 :: rest)
    (h0 : ¬ |v0.price.getD 0 - finaB2cPriceOf (getProductVisibility p) b2cPriceMap p.id| ≤ 1/100)
    (h1 : ¬ |v1.price.getD 0 - finaB2bPriceOf (getProductVisibility p) b2bPriceMap p.id| ≤ 1/100) :
    ((processProductNew wOk quantityMap b2cPriceMap b2bPriceMap lookup p).2).filter
        (fun op => op.isPriceBulk)
      = [WriteOp.priceBulk v0.productId
          [(v0.id, finaB2cPriceOf (getProductVisibility p) b2cPriceMap p.id),
           (v1.id, finaB2bPriceOf (getProductVisibility p) b2bPriceMap p.id)]] := by
  have hpend : pendingPricesNew ((getProductVisibility p).b2c == "1")
      ((getProductVisibility p).b2b == "1")
      (finaQuantityNew (getProductVisibility p) quantityMap p.id)
      (finaB2cPriceOf (getProductVisibility p) b2cPriceMap p.id)
      (finaB2bPriceOf (getProductVisibility p) b2bPriceMap p.id) 0 (v0 :: v1 :: rest)
      = [(v0.id, finaB2cPriceOf (getProductVisibility p) b2cPriceMap p.id),
         (v1.id, finaB2bPriceOf (getProductVisibility p) b2bPriceMap p.id)] := by
    rw [pendingPricesNew, pendingPricesNew,
      pendingPricesNew_ge_two _ _ _ _ _ _ 2 (by omega)]
    have h0' : (100 : ℚ)⁻¹ <
        |v0.price.getD 0 - finaB2cPriceOf (getProductVisibility p) b2cPriceMap p.id| := by
      simpa [one_div] using not_le.mp h0
    have h1' : (100 : ℚ)⁻¹ <
        |v1.price.getD 0 - finaB2bPriceOf (getProductVisibility p) b2bPriceMap p.id| := by
      simpa [one_div] using not_le.mp h1
    simp [variantTargetsNew, h0', h1']
  have hpu := runVariantsNew_priceUpdates wOk ((getProductVisibility p).b2c == "1")
    ((getProductVisibility p).b2b == "1")
    (finaQuantityNew (getProductVisibility p) quantityMap p.id)
    (finaB2cPriceOf (getProductVisibility p) b2cPriceMap p.id)
    (finaB2bPriceOf (getProductVisibility p) b2bPriceMap p.id) (v0 :: v1 :: rest) 0 initLoopState
  have hwf := runVariantsNew_writes_filter wOk ((getProductVisibility p).b2c == "1")
    ((getProductVisibility p).b2b == "1")
    (finaQuantityNew (getProductVisibility p) quantityMap p.id)
    (finaB2cPriceOf (getProductVisibility p) b2cPriceMap p.id)
    (finaB2bPriceOf (getProductVisibility p) b2bPriceMap p.id) (v0 :: v1 :: rest) 0 initLoopState
  rw [hpend] at hpu
  simp only [processProductNew, hlk]
  simp only [initLoopState] at hpu hwf
  simp only [List.filter_nil] at hwf
  simp only [initLoopState, hpu, List.nil_append]
  split
  next h => exact absurd h (by simp)
  next h =>
    split <;>
      (dsimp only
       rw [List.filter_append, hwf]
       simp [WriteOp.isPriceBulk])

/-- C3, witness: product `"ABC"` with two variants both at price 99 while
the snapshot prices are 10 (B2C) and 20 (B2B); the batched route's mutation
trace contains exactly one `productVariantsBulkUpdate`, covering both
variants. -/
theorem price_writes_coalesced_witness :
    ((processProductNew (fun _ => true) (fun _ => some 5) (fun _ => some 10) (fun _ => some 20)
        (fun s => if s = "ABC"
          then [ShopVariant.mk "v0" "ABC" (some 99) (some 5) "i0" "P",
                ShopVariant.mk "v1" "ABC" (some 99) (some 5) "i1" "P"]
          else [])
        (FinaProduct.mk 10 "ABC" none)).2).filter (fun op => op.isPriceBulk)
      = [WriteOp.priceBulk "P"
          [("v0", finaB2cPriceOf (getProductVisibility (FinaProduct.mk 10 "ABC" none))
              (fun _ => some 10) 10),
           ("v1", finaB2bPriceOf (getProductVisibility (FinaProduct.mk 10 "ABC" none))
              (fun _ => some 20) 10)]] :=
  price_writes_coalesced (fun _ => true) (fun _ => some 5) (fun _ => some 10) (fun _ => some 20)
    (fun s => if s = "ABC"
      then [ShopVariant.mk "v0" "ABC" (some 99) (some 5) "i0" "P",
            ShopVariant.mk "v1" "ABC" (some 99) (some 5) "i1" "P"]
      else [])
    (FinaProduct.mk 10 "ABC" none)
    (ShopVariant.mk "v0" "ABC" (some 99) (some 5) "i0" "P")
    (ShopVariant.mk "v1" "ABC" (some 99) (some 5) "i1" "P")
    [] rfl
    (by norm_num [getProductVisibility, finaB2cPriceOf])
    (by norm_num [getProductVisibility, finaB2bPriceOf])

/-- C3, counterexample on the legacy route: the same product with two
price-mismatched variants gets TWO `productVariantsBulkUpdate` calls (one
per variant), not one. -/
theorem price_bulk_legacy_two_calls_cex :
    ((processProductOld (fun _ => true) (fun _ => some 5) (fun _ => some 10) (fun _ => some 20)
        (fun s => if s = "ABC"
          then [ShopVariant.mk "v0" "ABC" (some 99) (some 5) "i0" "P",
                ShopVariant.mk "v1" "ABC" (some 99) (some 5) "i1" "P"]
          else [])
        (FinaProduct.mk 10 "ABC" none)).2).countP (fun op => op.isPriceBulk) = 2 ∧
    (2 : ℕ) ≠ 1 := by
  refine ⟨?_, by decide⟩
  norm_num [processProductOld, runVariantsOld, stepVariantOld, variantTargetsOld,
    finaQuantityOld, finaB2cPriceOf, finaB2bPriceOf, getProductVisibility, initLoopState,
    WriteOp.isPriceBulk, List.countP_cons, abs_sub_comm]

theorem chunksOf_length_50 {α : Type} : (l : List α) →
    (chunksOf 50 l).length = (l.length + 49) / 50
  | [] => by rw [chunksOf]; simp
  | x :: xs => by
      rw [chunksOf]
      rw [if_neg (by omega : ¬ (50 : ℕ) = 0)]
      simp only [List.length_cons]
      rw [chunksOf_length_50 (xs.drop 49)]
      simp only [List.length_drop]
      omega
termination_by l => l.length
decreasing_by simp only [List.length_drop, List.length_cons]; omega

theorem chunksOf_sizes {α : Type} (n : ℕ) : (l : List α) → ∀ c ∈ chunksOf n l,
    c.length ≤ n ∧ c ≠ [] ∧ ∀ x ∈ c, x ∈ l
  | [] => by simp [chunksOf]
  | x :: xs => by
      intro c hc
      rw [chunksOf] at hc
      by_cases hn : n = 0
      · simp [hn] at hc
      · rw [if_neg hn] at hc
        rcases List.mem_cons.mp hc with h | h
        · subst h
          refine ⟨List.length_take_le n (x :: xs), ?_, ?_⟩
          · obtain ⟨m, rfl⟩ := Nat.exists_eq_succ_of_ne_zero hn
            rw [List.take_succ_cons]
            exact List.cons_ne_nil x _
          · intro y hy
            exact List.mem_of_mem_take hy
        · have h3 := chunksOf_sizes n (xs.drop (n - 1)) c h
          exact ⟨h3.1, h3.2.1,
            fun y hy => List.mem_cons_of_mem x (List.mem_of_mem_drop (h3.2.2 y hy))⟩
termination_by l => l.length
decreasing_by simp only [List.length_drop, List.length_cons]; omega

theorem batchLookup_sku (search : List String → List ShopVariant) (q : List String)
    (s : String) : ∀ v ∈ batchLookup search q s, v.sku = s := by
  intro v hv
  unfold batchLookup at hv
  by_cases hs : s = ""
  · simp [hs] at hv
  · rw [if_neg hs] at hv
    exact of_decide_eq_true (List.mem_filter.mp hv).2

theorem foldl_batchLookup_exact (search : List String → List ShopVariant) (s : String) :
    ∀ (qs : List (List String)) (acc : List ShopVariant),
      (∀ v ∈ acc, v.sku = s) →
      ∀ v ∈ qs.foldl (fun acc q =>
          let hits := batchLookup search q s
          if hits = [] then acc else hits) acc, v.sku = s := by
  intro qs
  induction qs with
  | nil => intro acc hacc; simpa using hacc
  | cons q rest ih =>
      intro acc hacc
      rw [List.foldl_cons]
      apply ih
      by_cases h : batchLookup search q s = []
      · simpa [h] using hacc
      · simpa [h] using batchLookup_sku search q s

theorem preloadChunkVariants_exact (search : List String → List ShopVariant)
    (products : List FinaProduct) (s : String) :
    ∀ v ∈ preloadChunkVariants search products s, v.sku = s := by
  unfold preloadChunkVariants
  exact foldl_batchLookup_exact search s (issuedQueries products) [] (by simp)

theorem preloadChunkVariants_empty_of_no_match (search : List String → List ShopVariant)
    (products : List FinaProduct) (s : String)
    (hno : ∀ q ∈ issuedQueries products, ∀ v ∈ search q, v.sku ≠ s) :
    preloadChunkVariants search products s = [] := by
  unfold preloadChunkVariants
  have aux : ∀ (qs : List (List String)),
      (∀ q ∈ qs, ∀ v ∈ search q, v.sku ≠ s) → ∀ acc : List ShopVariant,
      qs.foldl (fun acc q =>
        let hits := batchLookup search q s
        if hits = [] then acc else hits) acc = acc := by
    intro qs
    induction qs with
    | nil => intro _ acc; rfl
    | cons q rest ih =>
        intro hq acc
        rw [List.foldl_cons]
        have hempty : batchLookup search q s = [] := by
          unfold batchLookup
          by_cases hs : s = ""
          · rw [if_pos hs]
          · rw [if_neg hs]
            refine List.filter_eq_nil_iff.mpr ?_
            intro v hv
            simpa using hq q (List.mem_cons_self q rest) v hv
        rw [hempty]
        simp only [if_pos rfl]
        exact ih (fun q2 hq2 => hq q2 (List.mem_cons_of_mem q hq2)) acc
  exact aux (issuedQueries products) hno []

/-- C4 (amended): the batched route resolves the chunk's SKUs in
`ceil(n/50)` OR-queries of at most 50 SKUs each, associates a product only
with variants whose `sku` field is exactly equal to the looked-up SKU, and a
lookup whose responses contain no exact match yields status `not_found`.
(The legacy route issues one query per SKU and uses the search response
unfiltered, so none of this holds there.) -/
theorem sku_batch_lookup_exact
    (search : List String → List ShopVariant) (products : List FinaProduct)
    (wOk : WriteOp → Bool) (quantityMap b2cPriceMap b2bPriceMap : Int → Option ℚ)
    (p : FinaProduct) (s : String)
    (hcodes : ∀ q ∈ products, q.code ≠ "")
    (hno : ∀ q ∈ issuedQueries products, ∀ v ∈ search q, v.sku ≠ p.code) :
    (issuedQueries products).length = (products.length + 49) / 50 ∧
    (∀ q ∈ issuedQueries products, q.length ≤ 50) ∧
    (∀ v ∈ preloadChunkVariants search products s, v.sku = s) ∧
    (processProductNew wOk quantityMap b2cPriceMap b2bPriceMap
        (preloadChunkVariants search products) p).1.status = .not_found := by
  refine ⟨?_, ?_, preloadChunkVariants_exact search products s, ?_⟩
  · unfold issuedQueries skuBatches
    have hall : ∀ q ∈ (chunksOf 50 products).map
        (fun part => (part.map (fun pr => pr.code)).filter (fun c => ¬ c = "")),
        ¬ q = [] := by
      intro q hq
      obtain ⟨part, hpart, rfl⟩ := List.mem_map.mp hq
      have hsz := chunksOf_sizes 50 products part hpart
      have hfil : (part.map (fun pr => pr.code)).filter (fun c => ¬ c = "")
          = part.map (fun pr => pr.code) := by
        refine List.filter_eq_self.mpr ?_
        intro c hc
        obtain ⟨pp, hpp, rfl⟩ := List.mem_map.mp hc
        simpa using hcodes pp (hsz.2.2 pp hpp)
      rw [hfil]
      simp only [ne_eq, List.map_eq_nil_iff]
      exact hsz.2.1
    rw [List.filter_eq_self.mpr (fun q hq => decide_eq_true (hall q hq)),
      List.length_map, chunksOf_length_50]
  · intro q hq
    have hq2 : q ∈ skuBatches products := List.mem_of_mem_filter hq
    unfold skuBatches at hq2
    obtain ⟨part, hpart, rfl⟩ := List.mem_map.mp hq2
    have h1 := List.length_filter_le (fun c => ¬ c = "") (part.map (fun pr => pr.code))
    have h2 : (part.map (fun pr => pr.code)).length = part.length := List.length_map _ _
    have h3 := (chunksOf_sizes 50 products part hpart).1
    omega
  · have hempty := preloadChunkVariants_empty_of_no_match search products p.code hno
    simp [processProductNew, hempty]

/-- C4, witness: a one-product chunk (`sku "A"`) against a search returning
no nodes: one query of one SKU is issued, the merged lookup is exact, and
the product's status is `not_found`. -/
theorem sku_batch_lookup_exact_witness :
    (issuedQueries [FinaProduct.mk 1 "A" none]).length
        = (([FinaProduct.mk 1 "A" none] : List FinaProduct).length + 49) / 50 ∧
    (∀ q ∈ issuedQueries [FinaProduct.mk 1 "A" none], q.length ≤ 50) ∧
    (∀ v ∈ preloadChunkVariants (fun _ => []) [FinaProduct.mk 1 "A" none] "A", v.sku = "A") ∧
    (processProductNew (fun _ => true) (fun _ => none) (fun _ => none) (fun _ => none)
        (preloadChunkVariants (fun _ => []) [FinaProduct.mk 1 "A" none])
        (FinaProduct.mk 1 "A" none)).1.status = .not_found :=
  sku_batch_lookup_exact (fun _ => []) [FinaProduct.mk 1 "A" none]
    (fun _ => true) (fun _ => none) (fun _ => none) (fun _ => none)
    (FinaProduct.mk 1 "A" none) "A"
    (by decide)
    (by intro q hq v hv; simp at hv)

/-- C4, counterexample on the legacy route: the one-SKU search for `"ABC"`
returns only a node whose SKU is the neighboring `"ABC123"`; the legacy
route associates that node with the product (status `updated`, a write is
attempted) instead of treating the lookup as `not_found`. -/
theorem sku_lookup_legacy_neighbor_cex :
    (processProductOld (fun _ => true) (fun _ => none) (fun _ => none) (fun _ => none)
        (fun s => if s = "ABC"
          then [ShopVariant.mk "v9" "ABC123" (some 10) (some 5) "i9" "P9"]
          else [])
        (FinaProduct.mk 10 "ABC" none)).1.status = .updated ∧
    (∀ v ∈ [ShopVariant.mk "v9" "ABC123" (some 10) (some 5) "i9" "P9"], v.sku ≠ "ABC") ∧
    Status.updated ≠ Status.not_found := by
  refine ⟨?_, by decide, by decide⟩
  norm_num [processProductOld, runVariantsOld, stepVariantOld, variantTargetsOld,
    finaQuantityOld, finaB2cPriceOf, finaB2bPriceOf, getProductVisibility, initLoopState]

/-- C5: evaluation of the legacy route at a SKU resolving to three variants
whose first two already match the snapshot exactly.  The loop still touches
the third variant: because `targetQuantity` is never assigned for positions
≥ 2 (JS `undefined`, embedded `none`), the comparison fails and an
`inventorySetQuantities` call with an undefined quantity is issued for it,
and the product is reported as `error` when that mutation fails.  (In the
batched route the extra variant's targets default to its current values, so
it is left untouched.) -/
theorem legacy_third_variant_touched :
    (processProductOld (fun _ => false) (fun _ => some 5) (fun _ => some 10) (fun _ => some 20)
        (fun s => if s = "ABC"
          then [ShopVariant.mk "v0" "ABC" (some 10) (some 5) "i0" "P",
                ShopVariant.mk "v1" "ABC" (some 20) (some 5) "i1" "P",
                ShopVariant.mk "v2" "ABC" (some 3) (some 7) "i2" "P"]
          else [])
        (FinaProduct.mk 10 "ABC" none))
      = (ChunkResult.mk "ABC" .error 5 10 20, [WriteOp.invSet "i2" none]) := by
  norm_num [processProductOld, runVariantsOld, stepVariantOld, variantTargetsOld,
    finaQuantityOld, finaB2cPriceOf, finaB2bPriceOf, getProductVisibility, initLoopState]
  simp

/-- C7: for a valid invocation (`offset ≥ 0`, `limit > 0`) against a
non-empty catalog, the response's completion flag is exactly
`offset + limit ≥ totalRecords`, and `nextOffset` is `offset + limit` when
the chunk is not complete and `null` when it is. -/
theorem chunk_completion_rule
    (wOk : WriteOp → Bool) (search : List String → List ShopVariant)
    (quantityMap b2cPriceMap b2bPriceMap : Int → Option ℚ)
    (o l : Int) (allFinaProducts : List FinaProduct)
    (ho : 0 ≤ o) (hl : 0 < l) (hne : allFinaProducts ≠ []) :
    (actionModel wOk search quantityMap b2cPriceMap b2bPriceMap
        (some o) (some l) allFinaProducts).1.isComplete
      = decide (allFinaProducts.length ≤ o.toNat + l.toNat) ∧
    (actionModel wOk search quantityMap b2cPriceMap b2bPriceMap
        (some o) (some l) allFinaProducts).1.nextOffset
      = (if allFinaProducts.length ≤ o.toNat + l.toNat then none
         else some (o.toNat + l.toNat)) := by
  have ho' : ¬ (o < 0) := not_lt.mpr ho
  have hl' : ¬ (l ≤ 0) := not_le.mpr hl
  have hne0 : ¬ (allFinaProducts.length = 0) := fun h => hne (List.length_eq_zero.mp h)
  simp only [actionModel, offsetInvalid, limitInvalid]
  rw [if_neg (by simpa using ho'), if_neg (by simpa using hl')]
  unfold actionValid
  rw [if_neg hne0]
  simp only [Option.getD_some]
  by_cases hc : allFinaProducts.length ≤ o.toNat + l.toNat
  · constructor <;> simp [hc]
  · have h2 : ¬ (allFinaProducts.length ≤ o.toNat
        + ((allFinaProducts.drop o.toNat).take l.toNat).length) := by
      simp only [List.length_take, List.length_drop]
      omega
    constructor <;> simp [hc, h2] <;> omega

/-- C7, witness: a 10-product catalog at `offset=0, limit=5` is not complete
and resumes at `nextOffset = 5`. -/
theorem chunk_completion_rule_witness :
    (actionModel (fun _ => true) (fun _ => []) (fun _ => none) (fun _ => none) (fun _ => none)
        (some 0) (some 5) (List.replicate 10 (FinaProduct.mk 1 "x" none))).1.isComplete
      = decide ((List.replicate 10 (FinaProduct.mk 1 "x" none)).length
          ≤ (0 : Int).toNat + (5 : Int).toNat) ∧
    (actionModel (fun _ => true) (fun _ => []) (fun _ => none) (fun _ => none) (fun _ => none)
        (some 0) (some 5) (List.replicate 10 (FinaProduct.mk 1 "x" none))).1.nextOffset
      = (if (List.replicate 10 (FinaProduct.mk 1 "x" none)).length
            ≤ (0 : Int).toNat + (5 : Int).toNat then none
         else some ((0 : Int).toNat + (5 : Int).toNat)) :=
  chunk_completion_rule (fun _ => true) (fun _ => []) (fun _ => none) (fun _ => none)
    (fun _ => none) 0 5 (List.replicate 10 (FinaProduct.mk 1 "x" none))
    (by decide) (by decide) (by decide)

/-- C8: an invocation whose offset parses to `NaN` or a negative number, or
whose limit parses to `NaN` or a non-positive number, returns
`success:false, isComplete:true` and makes no remote call to the ERP or the
storefront. -/
theorem invalid_params_no_remote_calls
    (wOk : WriteOp → Bool) (search : List String → List ShopVariant)
    (quantityMap b2cPriceMap b2bPriceMap : Int → Option ℚ)
    (offsetP limitP : Option Int) (allFinaProducts : List FinaProduct)
    (h : offsetInvalid offsetP = true ∨ limitInvalid limitP = true) :
    (actionModel wOk search quantityMap b2cPriceMap b2bPriceMap
        offsetP limitP allFinaProducts).1.success = false ∧
    (actionModel wOk search quantityMap b2cPriceMap b2bPriceMap
        offsetP limitP allFinaProducts).1.isComplete = true ∧
    (actionModel wOk search quantityMap b2cPriceMap b2bPriceMap
        offsetP limitP allFinaProducts).2 = [] := by
  rcases h with h | h
  · simp [actionModel, h, invalidResponse]
  · by_cases h2 : offsetInvalid offsetP = true
    · simp [actionModel, h2, invalidResponse]
    · simp [actionModel, h, h2, invalidResponse]

/-- C8, witness: `offset` parsing to `NaN` (with a valid limit) yields
`success:false, isComplete:true` and an empty remote-call trace. -/
theorem invalid_params_no_remote_calls_witness :
    (actionModel (fun _ => true) (fun _ => []) (fun _ => none) (fun _ => none) (fun _ => none)
        none (some 5) [FinaProduct.mk 1 "x" none]).1.success = false ∧
    (actionModel (fun _ => true) (fun _ => []) (fun _ => none) (fun _ => none) (fun _ => none)
        none (some 5) [FinaProduct.mk 1 "x" none]).1.isComplete = true ∧
    (actionModel (fun _ => true) (fun _ => []) (fun _ => none) (fun _ => none) (fun _ => none)
        none (some 5) [FinaProduct.mk 1 "x" none]).2 = [] :=
  invalid_params_no_remote_calls (fun _ => true) (fun _ => []) (fun _ => none) (fun _ => none)
    (fun _ => none) none (some 5) [FinaProduct.mk 1 "x" none] (Or.inl (by decide))

theorem chunksOf_join {α : Type} (n : ℕ) (hn : ¬ n = 0) : (l : List α) →
    (chunksOf n l).flatten = l
  | [] => by rw [chunksOf]; rfl
  | x :: xs => by
      rw [chunksOf, if_neg hn]
      simp only [List.flatten_cons]
      rw [chunksOf_join n hn (xs.drop (n - 1))]
      have hdrop : xs.drop (n - 1) = (x :: xs).drop n := by
        cases n with
        | zero => exact absurd rfl hn
        | succ m => simp [List.drop_succ_cons]
      rw [hdrop, List.take_append_drop]
termination_by l => l.length
decreasing_by simp only [List.length_drop, List.length_cons]; omega

theorem chunkResultsOf_length (wOk : WriteOp → Bool) (search : List String → List ShopVariant)
    (quantityMap b2cPriceMap b2bPriceMap : Int → Option ℚ) (l : List FinaProduct) :
    (chunkResultsOf wOk search quantityMap b2cPriceMap b2bPriceMap l).length = l.length := by
  unfold chunkResultsOf
  rw [List.length_flatten, List.map_map]
  have h1 : (List.length ∘ fun c =>
      (processProductChunkNew wOk search quantityMap b2cPriceMap b2bPriceMap c).map Prod.fst)
      = List.length := by
    funext c
    simp [processProductChunkNew]
  rw [h1, ← List.length_flatten, chunksOf_join 250 (by omega) l]

theorem countP_status_partition (rs : List ChunkResult) :
    rs.countP (fun r => r.status == Status.updated)
      + rs.countP (fun r => r.status == Status.no_change)
      + rs.countP (fun r => r.status == Status.error)
      + rs.countP (fun r => r.status == Status.not_found) = rs.length := by
  induction rs with
  | nil => rfl
  | cons r rest ih =>
      rcases hr : r.status <;> simp [hr, List.countP_cons] <;> omega

/-- C10: per-product processing of the sliced chunk yields exactly one
result per product, every result's status is one of `updated`, `no_change`,
`not_found`, `error`, and the reported counters satisfy
`successful + noChange + errors + notFound = processed` (the actual chunk
size). -/
theorem chunk_results_partition
    (wOk : WriteOp → Bool) (search : List String → List ShopVariant)
    (quantityMap b2cPriceMap b2bPriceMap : Int → Option ℚ)
    (offset limit : ℕ) (allFinaProducts : List FinaProduct) :
    (chunkResultsOf wOk search quantityMap b2cPriceMap b2bPriceMap
        ((allFinaProducts.drop offset).take limit)).length
      = ((allFinaProducts.drop offset).take limit).length ∧
    (∀ r ∈ chunkResultsOf wOk search quantityMap b2cPriceMap b2bPriceMap
        ((allFinaProducts.drop offset).take limit),
      r.status = .updated ∨ r.status = .no_change ∨ r.status = .not_found ∨ r.status = .error) ∧
    (actionValid wOk search quantityMap b2cPriceMap b2bPriceMap
        offset limit allFinaProducts).1.successful
      + (actionValid wOk search quantityMap b2cPriceMap b2bPriceMap
          offset limit allFinaProducts).1.noChange
      + (actionValid wOk search quantityMap b2cPriceMap b2bPriceMap
          offset limit allFinaProducts).1.errors
      + (actionValid wOk search quantityMap b2cPriceMap b2bPriceMap
          offset limit allFinaProducts).1.notFound
      = (actionValid wOk search quantityMap b2cPriceMap b2bPriceMap
          offset limit allFinaProducts).1.processed := by
  refine ⟨chunkResultsOf_length wOk search quantityMap b2cPriceMap b2bPriceMap _, ?_, ?_⟩
  · intro r _
    rcases r.status <;> tauto
  · unfold actionValid
    by_cases h0 : allFinaProducts.length = 0
    · rw [if_pos h0]
      rfl
    · rw [if_neg h0]
      dsimp only
      rw [countP_status_partition, chunkResultsOf_length]
